import Mathlib

/-!
Verification of the news-api-mcp request mediator and response formatter
(`news_api_mcp/tools.py` and the tool-dispatch part of
`news_api_mcp/server.py`) against its natural-language specification.

The Python code is shallowly embedded: JSON-decoded values become the
inductive `JValue`, Python dicts become association lists with unique keys
kept in insertion order, and the single outbound HTTP call of the mediator is
abstracted by an `HttpOutcome` describing everything the code observes about
the call (timeout, connection failure, a response with a status code, raw
text and an optionally-parseable JSON body, or any other exception raised by
the client).  Exceptions are modelled with `Except`; a caught exception is
rendered with the `str(e)` text CPython produces where that text is fixed,
and with an explicitly noted approximation where it depends on the runtime.
-/

/-- JSON values as produced by `response.json()`.  Numbers are modelled as
integers; every numeric field this program reads (`totalResults`,
`page_size`, `page`) is integral. -/
inductive JValue : Type where
  | jnull : JValue
  | jbool : Bool → JValue
  | jnum : Int → JValue
  | jstr : String → JValue
  | jarr : List JValue → JValue
  | jobj : List (String × JValue) → JValue

/-- A Python dict with string keys: bindings in insertion order.  Dicts
built by Python always have pairwise-distinct keys; lookups take the first
binding. -/
abbrev JDict := List (String × JValue)

/-- `d.get(k)`: the binding of `k`, if any. -/
def jGet (d : JDict) (k : String) : Option JValue :=
  (d.find? (fun p => p.1 == k)).map (fun p => p.2)

/-- `d.get(k, default)`. -/
def jGetD (d : JDict) (k : String) (v : JValue) : JValue :=
  (jGet d k).getD v

/-- `k in d`. -/
def hasKey (d : JDict) (k : String) : Bool :=
  d.any (fun p => p.1 == k)

/-- `d[k] = v`: overwrite the binding in place when the key is present,
append it otherwise (Python dicts keep insertion order on overwrite). -/
def dictSet (d : JDict) (k : String) (v : JValue) : JDict :=
  if hasKey d k then d.map (fun p => if p.1 == k then (k, v) else p)
  else d ++ [(k, v)]

/-- Python truthiness of a JSON-decoded value. -/
def pyTruthy : JValue → Bool
  | .jnull => false
  | .jbool b => b
  | .jnum n => n != 0
  | .jstr s => s != ""
  | .jarr xs => !xs.isEmpty
  | .jobj d => !d.isEmpty

/-- The ASCII apostrophe, via its code point. -/
def pyQuote : String := String.singleton (Char.ofNat 39)

mutual

/-- Python `repr` of a JSON-decoded value (what `str` shows for values
nested inside containers). -/
def pyRepr : JValue → String
  | .jnull => "None"
  | .jbool true => "True"
  | .jbool false => "False"
  | .jnum n => toString n
  | .jstr s => pyQuote ++ s ++ pyQuote
  | .jarr xs => "[" ++ pyReprList xs ++ "]"
  | .jobj d => "\x7b" ++ pyReprObj d ++ "\x7d"

/-- Comma-separated `repr`s of the elements of a list. -/
def pyReprList : List JValue → String
  | [] => ""
  | [x] => pyRepr x
  | x :: y :: xs => pyRepr x ++ ", " ++ pyReprList (y :: xs)

/-- Comma-separated `key: value` renderings of the bindings of a dict. -/
def pyReprObj : List (String × JValue) → String
  | [] => ""
  | [(k, v)] => pyQuote ++ k ++ pyQuote ++ ": " ++ pyRepr v
  | (k, v) :: p :: d => pyQuote ++ k ++ pyQuote ++ ": " ++ pyRepr v ++ ", " ++ pyReprObj (p :: d)

end

/-- Python `str`, as applied by f-string interpolation. -/
def pyStr : JValue → String
  | .jstr s => s
  | v => pyRepr v

/-- The Python type name of a JSON-decoded value. -/
def pyTypeName : JValue → String
  | .jnull => "NoneType"
  | .jbool _ => "bool"
  | .jnum _ => "int"
  | .jstr _ => "str"
  | .jarr _ => "list"
  | .jobj _ => "dict"

/-- `str` of the `AttributeError` CPython raises for a missing attribute. -/
def attrErrMsg (v : JValue) (a : String) : String :=
  pyQuote ++ pyTypeName v ++ pyQuote ++ " object has no attribute " ++ pyQuote ++ a ++ pyQuote

/-! ### The `datetime` fragment used by `format_article` -/

/-- The fields of a `datetime.datetime` that `strftime` reads here.  The
parsed UTC offset, if any, is validated but not stored: `strftime` renders
the datetime's own (wall-clock) fields. -/
structure PyDateTime where
  year : Nat
  month : Nat
  day : Nat
  hour : Nat
  minute : Nat
  second : Nat
deriving DecidableEq

def isLeap (y : Nat) : Bool :=
  (y % 4 == 0 && y % 100 != 0) || y % 400 == 0

def daysInMonth (y m : Nat) : Nat :=
  if m == 2 then (if isLeap y then 29 else 28)
  else if m == 4 || m == 6 || m == 9 || m == 11 then 30
  else 31

def digitsToNat (cs : List Char) : Nat :=
  cs.foldl (fun a c => a * 10 + (c.toNat - 48)) 0

/-- Read exactly `n` ASCII digits from the front of the character list. -/
def takeDigits (n : Nat) (cs : List Char) : Option (Nat × List Char) :=
  let pre := cs.take n
  if pre.length == n && pre.all Char.isDigit then some (digitsToNat pre, cs.drop n)
  else none

/-- An optional fractional part `.fff` or `.ffffff` (value ignored: the
display format has no sub-minute precision). -/
def parseFraction : List Char → Option (List Char)
  | '.' :: rest =>
    let ds := rest.takeWhile Char.isDigit
    if ds.length == 3 || ds.length == 6 then some (rest.drop ds.length) else none
  | cs => some cs

/-- Parse `HH[:MM[:SS[.fff[fff]]]]`, returning the hour, minute and second
together with the remaining characters (the optional UTC-offset suffix). -/
def parseTimeOfDay (cs : List Char) : Option (Nat × Nat × Nat × List Char) := do
  let (h, r1) ← takeDigits 2 cs
  match r1 with
  | ':' :: r2 => do
    let (m, r3) ← takeDigits 2 r2
    match r3 with
    | ':' :: r4 => do
      let (s, r5) ← takeDigits 2 r4
      let r6 ← parseFraction r5
      pure (h, m, s, r6)
    | r4 => pure (h, m, 0, r4)
  | r2 => pure (h, 0, 0, r2)

/-- Accept the `±HH:MM[:SS[.ffffff]]` UTC-offset suffix, or no suffix (a
naive datetime).  The offset must describe a valid `timezone`, i.e. lie
strictly between -24h and +24h. -/
def parseTzSuffix : List Char → Bool
  | [] => true
  | c :: rest =>
    (c == '+' || c == '-') &&
    (match takeDigits 2 rest with
     | none => false
     | some (th, r1) =>
       match r1 with
       | ':' :: r2 =>
         (match takeDigits 2 r2 with
          | none => false
          | some (tm, r3) =>
            th ≤ 23 && tm ≤ 59 &&
            (match r3 with
             | [] => true
             | ':' :: r4 =>
               (match takeDigits 2 r4 with
                | none => false
                | some (ts, r5) =>
                  ts ≤ 59 && (match parseFraction r5 with
                              | some [] => true
                              | _ => false))
             | _ => false))
       | _ => false)

/-- `datetime.datetime.fromisoformat`, on the grammar CPython accepts for
its own `isoformat` output: `YYYY-MM-DD[<sep>HH[:MM[:SS[.fff[fff]]]]][±HH:MM
[:SS[.ffffff]]]` with a single arbitrary separator character and full
calendar validation.  `none` models the `ValueError` raised on any other
string. -/
def pyFromIso (s : String) : Option PyDateTime := do
  let cs := s.toList
  let (y, r1) ← takeDigits 4 cs
  let r2 ← match r1 with
    | '-' :: r => some r
    | _ => none
  let (mo, r3) ← takeDigits 2 r2
  let r4 ← match r3 with
    | '-' :: r => some r
    | _ => none
  let (d, r5) ← takeDigits 2 r4
  let (h, mi, se, rest) ← match r5 with
    | [] => some (0, 0, 0, ([] : List Char))
    | _ :: r6 => parseTimeOfDay r6
  if 1 ≤ y ∧ 1 ≤ mo ∧ mo ≤ 12 ∧ 1 ≤ d ∧ d ≤ daysInMonth y mo ∧
      h ≤ 23 ∧ mi ≤ 59 ∧ se ≤ 59 ∧ parseTzSuffix rest = true then
    pure ⟨y, mo, d, h, mi, se⟩
  else none

def pad2 (n : Nat) : String :=
  if n < 10 then "0" ++ toString n else toString n

def pad4 (n : Nat) : String :=
  if n < 10 then "000" ++ toString n
  else if n < 100 then "00" ++ toString n
  else if n < 1000 then "0" ++ toString n
  else toString n

/-- `date_obj.strftime("%Y-%m-%d %H:%M UTC")`. -/
def strftimeDisplay (t : PyDateTime) : String :=
  pad4 t.year ++ "-" ++ pad2 t.month ++ "-" ++ pad2 t.day ++ " " ++
    pad2 t.hour ++ ":" ++ pad2 t.minute ++ " UTC"

/-! ### The request mediator (`make_news_api_request`) -/

/-- Everything `make_news_api_request` can observe about its one HTTP call:
a transport timeout, a connection failure, a response (with status code, raw
text, and the JSON value its body decodes to, if it decodes at all), or any
other exception raised while performing the request. -/
inductive HttpOutcome : Type where
  | timeout : HttpOutcome
  | connectFailure : HttpOutcome
  | response (status : Nat) (body : String) (json : Option JValue) : HttpOutcome
  | otherFailure (msg : String) : HttpOutcome

/-- The exceptions the body of the mediator's `try` can raise.  All of them
are subclasses of `Exception`, so the trailing `except Exception` clause is
a catch-all for this type. -/
inductive PyExc : Type where
  | timeoutExc : PyExc
  | connectExc : PyExc
  | httpStatusExc (status : Nat) (body : String) : PyExc
  | jsonDecodeExc : PyExc
  | attrExc (tyName a : String) : PyExc
  | otherExc (msg : String) : PyExc

/-- The mediator's `try` block.  Early `return`s become `.ok` (with the
success payload on the left and an error string on the right); raised
exceptions become `.error`.  Status codes 429, 401 and 400 are classified
before `raise_for_status`, which raises on every non-2xx status;
`response.json()` raises on an undecodable body; `data.get` raises
`AttributeError` when the decoded body is not an object. -/
def tryBody : HttpOutcome → Except PyExc (JValue ⊕ String)
  | .timeout => .error .timeoutExc
  | .connectFailure => .error .connectExc
  | .otherFailure m => .error (.otherExc m)
  | .response st body json =>
    if st == 429 then
      .ok (.inr "Rate limit exceeded. The News API has a limit of 100 requests per day for the free tier.")
    else if st == 401 then
      .ok (.inr "Unauthorized. API key invalid or expired.")
    else if st == 400 then
      .ok (.inr ("Bad request. Error details: " ++ body))
    else if st < 200 ∨ 300 ≤ st then
      .error (.httpStatusExc st body)
    else
      match json with
      | none => .error .jsonDecodeExc
      | some data =>
        match data with
        | .jobj fields =>
          (match jGet fields "status" with
           | some (.jstr s) =>
             if s == "error" then
               .ok (.inr ("News API error: " ++ pyStr (jGetD fields "message" (.jstr "Unknown error"))))
             else .ok (.inl (.jobj fields))
           | _ => .ok (.inl (.jobj fields)))
        | v => .error (.attrExc (pyTypeName v) "get")

/-- `str(e)` for the exceptions that reach the final `except Exception`
clause.  The decode-error text is the one CPython produces for an empty or
non-JSON body prefix; the texts for the three exceptions always caught by
the earlier clauses are irrelevant and left empty. -/
def pyExcStr : PyExc → String
  | .jsonDecodeExc => "Expecting value: line 1 column 1 (char 0)"
  | .attrExc ty a => pyQuote ++ ty ++ pyQuote ++ " object has no attribute " ++ pyQuote ++ a ++ pyQuote
  | .otherExc m => m
  | .timeoutExc => ""
  | .connectExc => ""
  | .httpStatusExc _ _ => ""

/-- `str(e)` for an `httpx.HTTPStatusError`.  The exact wording depends on
the httpx version and the request URL, so it is modelled as an unspecified
function of the status code alone. -/
def httpStatusExcStr (st : Nat) : String :=
  "status " ++ toString st ++ " while requesting the News API"

/-- The mediator's `except` clauses, in source order; the trailing
`except Exception` clause catches every exception not matched earlier. -/
def handleRaised : PyExc → String
  | .timeoutExc => "Request timed out after 30 seconds. The News API may be experiencing delays."
  | .connectExc => "Failed to connect to News API. Please check your internet connection."
  | .httpStatusExc st body => "HTTP error occurred: " ++ httpStatusExcStr st ++ " - Response: " ++ body
  | e => "Unexpected error occurred: " ++ pyExcStr e

/-- The value `make_news_api_request` returns for a given HTTP outcome:
the parsed payload (left) or a descriptive error string (right). -/
def mediatorResult (o : HttpOutcome) : JValue ⊕ String :=
  match tryBody o with
  | .ok r => r
  | .error e => .inr (handleRaised e)

/-- One call of `make_news_api_request`: its return value, the query mapping
serialized upstream, and the caller's params dict after the call returns.
`params["apiKey"] = API_KEY` mutates the caller's dict in place when the
caller passed one (`callerParams = none` models a `params=None` call, where
only a fresh local dict is touched).  The module-level `API_KEY` global is
passed explicitly as `apiKey`; the `endpoint` string only selects the request
URL (an f-string that cannot raise), whose effect the `HttpOutcome`
abstraction subsumes. -/
structure MediatorCall where
  result : JValue ⊕ String
  sentParams : JDict
  callerParams : Option JDict

def make_news_api_request (apiKey : String) (endpoint : String)
    (params : Option JDict) (o : HttpOutcome) : MediatorCall :=
  let p := dictSet (params.getD []) "apiKey" (.jstr apiKey)
  { result := mediatorResult o
    sentParams := p
    callerParams := params.map (fun _ => p) }

/-! ### The response formatter (`format_article`, `format_articles`,
`format_source`, `format_sources`) -/

/-- `published_at.replace("Z", "+00:00")`: every occurrence of the single
character `Z` is replaced.  (A standalone definition, since the library's
`String.replace` is not kernel-reducible.) -/
def replaceZ (s : String) : String :=
  ⟨s.data.foldr (fun c acc => if c = 'Z' then "+00:00".data ++ acc else c :: acc) []⟩

/-- The published-date normalisation inside `format_article`, for a truthy
string value: replace `Z` by `+00:00`, parse, and reformat; the inner
`except (ValueError, TypeError)` falls back to the raw string when parsing
raises. -/
def formatPublished (s : String) : String :=
  match pyFromIso (replaceZ s) with
  | some t => strftimeDisplay t
  | none => s

/-- The body of `format_article`'s `try`, raising (as `.error`, carrying
`str(e)`) exactly where the Python raises: `published_at.replace` on a
truthy non-string value, and `.get` on a non-dict `source` value. -/
def formatArticleCore (a : JDict) : Except String String :=
  let pub := jGetD a "publishedAt" (.jstr "")
  match (if pyTruthy pub then
           match pub with
           | .jstr s => Except.ok (formatPublished s)
           | v => Except.error (attrErrMsg v "replace")
         else Except.ok "Unknown date") with
  | .error e => .error e
  | .ok formattedDate =>
    match jGetD a "source" (.jobj []) with
    | .jobj src =>
      .ok ("Title: " ++ pyStr (jGetD a "title" (.jstr "N/A")) ++ "\n" ++
           "Source: " ++ pyStr (jGetD src "name" (.jstr "N/A")) ++ "\n" ++
           "Author: " ++ pyStr (jGetD a "author" (.jstr "N/A")) ++ "\n" ++
           "Published: " ++ formattedDate ++ "\n" ++
           "Description: " ++ pyStr (jGetD a "description" (.jstr "N/A")) ++ "\n" ++
           "URL: " ++ pyStr (jGetD a "url" (.jstr "N/A")) ++ "\n" ++
           "---\n")
    | v => .error (attrErrMsg v "get")

/-- `format_article`: any exception raised while building the block is
caught and rendered inline (`article.get` itself raises when the argument is
not a dict). -/
def format_article (a : JValue) : String :=
  match (match a with
         | .jobj d => formatArticleCore d
         | v => Except.error (attrErrMsg v "get")) with
  | .ok s => s
  | .error e => "Error formatting article data: " ++ e

/-- `format_source`: the only exception its `try` can raise is
`source.get` on a non-dict argument. -/
def format_source (v : JValue) : String :=
  match v with
  | .jobj s =>
    "Name: " ++ pyStr (jGetD s "name" (.jstr "N/A")) ++ "\n" ++
    "ID: " ++ pyStr (jGetD s "id" (.jstr "N/A")) ++ "\n" ++
    "Description: " ++ pyStr (jGetD s "description" (.jstr "N/A")) ++ "\n" ++
    "Category: " ++ pyStr (jGetD s "category" (.jstr "N/A")) ++ "\n" ++
    "Language: " ++ pyStr (jGetD s "language" (.jstr "N/A")) ++ "\n" ++
    "Country: " ++ pyStr (jGetD s "country" (.jstr "N/A")) ++ "\n" ++
    "URL: " ++ pyStr (jGetD s "url" (.jstr "N/A")) ++ "\n" ++
    "---\n"
  | v => "Error formatting source data: " ++ attrErrMsg v "get"

/-- The labelled blocks `format_articles` accumulates for the first `limit`
articles (`for i, article in enumerate(articles_limited, 1)`). -/
def articleBlocks (articles : List JValue) (limit : Nat) : List String :=
  (articles.take limit).enum.map
    (fun p => "Article " ++ toString (p.1 + 1) ++ ":\n" ++ format_article p.2)

/-- The trailing omitted-count line, appended exactly when items were cut. -/
def moreLine (total limit : Nat) (kind : String) : List String :=
  if limit < total then
    ["\n... and " ++ toString (total - limit) ++ " more " ++ kind]
  else []

/-- `format_articles` on a Python list.  The Python default `limit=5` is
applied at each call site that omits the argument. -/
def format_articles (articles : List JValue) (limit : Nat) : String :=
  if articles.isEmpty then "No articles found."
  else String.intercalate "\n"
    (articleBlocks articles limit ++ moreLine articles.length limit "articles")

/-- The labelled blocks `format_sources` accumulates. -/
def sourceBlocks (sources : List JValue) (limit : Nat) : List String :=
  (sources.take limit).enum.map
    (fun p => "Source " ++ toString (p.1 + 1) ++ ":\n" ++ format_source p.2)

/-- `format_sources` on a Python list. -/
def format_sources (sources : List JValue) (limit : Nat) : String :=
  if sources.isEmpty then "No sources found."
  else String.intercalate "\n"
    (sourceBlocks sources limit ++ moreLine sources.length limit "sources")

/-- `str(e)` for `v[:limit]` on a non-sliceable Python value. -/
def sliceErrMsg (v : JValue) : String :=
  match v with
  | .jobj _ => "unhashable type: " ++ pyQuote ++ "slice" ++ pyQuote
  | v => pyQuote ++ pyTypeName v ++ pyQuote ++ " object is not subscriptable"

/-- `format_articles` as called by the server with an arbitrary JSON value:
`if not articles` tests truthiness of any value; slicing and iterating a
string yields its one-character substrings; any other non-list value raises
a `TypeError` at `articles[:limit]`, caught by the surrounding `except`. -/
def format_articles_py (v : JValue) (limit : Nat) : String :=
  if !pyTruthy v then "No articles found."
  else match v with
    | .jarr xs => format_articles xs limit
    | .jstr s =>
      String.intercalate "\n"
        ((((s.toList.take limit).map (fun c => JValue.jstr (String.singleton c))).enum.map
           (fun p => "Article " ++ toString (p.1 + 1) ++ ":\n" ++ format_article p.2)) ++
         moreLine s.length limit "articles")
    | v => "Error formatting articles: " ++ sliceErrMsg v

/-- `format_sources` as called by the server with an arbitrary JSON value. -/
def format_sources_py (v : JValue) (limit : Nat) : String :=
  if !pyTruthy v then "No sources found."
  else match v with
    | .jarr xs => format_sources xs limit
    | .jstr s =>
      String.intercalate "\n"
        ((((s.toList.take limit).map (fun c => JValue.jstr (String.singleton c))).enum.map
           (fun p => "Source " ++ toString (p.1 + 1) ++ ":\n" ++ format_source p.2)) ++
         moreLine s.length limit "sources")
    | v => "Error formatting sources: " ++ sliceErrMsg v

/-! ### Tool dispatch (`handle_call_tool` in `server.py`) -/

/-- The walrus pattern `if value := arguments.get(k):` -- the value when the
key is bound to a truthy value, else `none`. -/
def truthyArg (args : JDict) (k : String) : Option JValue :=
  let v := jGetD args k .jnull
  if pyTruthy v then some v else none

/-- `f"country: {country.upper()}"` for a truthy `country` argument.
`none` models the uncaught `AttributeError` that `.upper()` raises on a
truthy non-string value (the tool schema declares the argument as a
string). -/
def countryPart (args : JDict) : Option (List String) :=
  match truthyArg args "country" with
  | none => some []
  | some (.jstr c) => some ["country: " ++ c.toUpper]
  | some _ => none

/-- A `f"<label>{value}"` title part for a truthy argument. -/
def plainPart (args : JDict) (k label : String) : List String :=
  match truthyArg args k with
  | none => []
  | some v => [label ++ pyStr v]

/-- A `f"<label>'{value}'"` title part for a truthy argument. -/
def quotedPart (args : JDict) (k label : String) : List String :=
  match truthyArg args k with
  | none => []
  | some v => [label ++ pyQuote ++ pyStr v ++ pyQuote]

/-- `title` plus `" for "` and the comma-joined parts when any exist. -/
def titleFrom (base : String) (parts : List String) : String :=
  if parts.isEmpty then base else base ++ " for " ++ String.intercalate ", " parts

/-- `len(v)` for a JSON-decoded value; `none` models the `TypeError` raised
on values with no length. -/
def pyLen : JValue → Option Nat
  | .jstr s => some s.length
  | .jarr xs => some xs.length
  | .jobj d => some d.length
  | _ => none

/-- The `search-news` branch of `handle_call_tool`.  The returned pair is
the text content and the number of mediator invocations performed; `none`
models an exception escaping the handler. -/
def handleSearch (apiKey : String) (args : JDict) (o : HttpOutcome) :
    Option (String × Nat) :=
  let query := jGetD args "query" .jnull
  if !pyTruthy query then some ("Missing query parameter", 0)
  else
    let params0 : JDict :=
      [("q", query),
       ("pageSize", jGetD args "page_size" (.jnum 20)),
       ("page", jGetD args "page" (.jnum 1)),
       ("language", jGetD args "language" (.jstr "en")),
       ("sortBy", jGetD args "sort_by" (.jstr "publishedAt"))]
    let params1 := match truthyArg args "from_date" with
      | some v => dictSet params0 "from" v
      | none => params0
    let params2 := match truthyArg args "to_date" with
      | some v => dictSet params1 "to" v
      | none => params1
    let params3 := match truthyArg args "sources" with
      | some v => dictSet params2 "sources" v
      | none => params2
    match (make_news_api_request apiKey "everything" (some params3) o).result with
    | .inr s => some ("Error: " ++ s, 1)
    | .inl data =>
      match data with
      | .jobj fs =>
        let articles := jGetD fs "articles" (.jarr [])
        let totalResults := jGetD fs "totalResults" (.jnum 0)
        if !pyTruthy articles then
          some ("No articles found for query: " ++ pyQuote ++ pyStr query ++ pyQuote, 1)
        else
          some ("Search results for " ++ pyQuote ++ pyStr query ++ pyQuote ++
                " (Found " ++ pyStr totalResults ++ " articles):\n\n" ++
                format_articles_py articles 5, 1)
      | _ => none

/-- The `get-top-headlines` branch of `handle_call_tool`. -/
def handleHeadlines (apiKey : String) (args : JDict) (o : HttpOutcome) :
    Option (String × Nat) :=
  if !(hasKey args "country" || hasKey args "category" ||
       hasKey args "sources" || hasKey args "query") then
    some ("You must specify at least one of: country, category, sources, or query", 0)
  else
    let params0 : JDict :=
      [("pageSize", jGetD args "page_size" (.jnum 20)),
       ("page", jGetD args "page" (.jnum 1))]
    let params1 := match truthyArg args "country" with
      | some v => dictSet params0 "country" v
      | none => params0
    let params2 := match truthyArg args "category" with
      | some v => dictSet params1 "category" v
      | none => params1
    let params3 := match truthyArg args "sources" with
      | some v => dictSet params2 "sources" v
      | none => params2
    let params4 := match truthyArg args "query" with
      | some v => dictSet params3 "q" v
      | none => params3
    match (make_news_api_request apiKey "top-headlines" (some params4) o).result with
    | .inr s => some ("Error: " ++ s, 1)
    | .inl data =>
      match data with
      | .jobj fs =>
        let articles := jGetD fs "articles" (.jarr [])
        let totalResults := jGetD fs "totalResults" (.jnum 0)
        if !pyTruthy articles then
          some ("No headlines found matching your criteria", 1)
        else
          match countryPart args with
          | none => none
          | some cp =>
            let parts := cp ++ plainPart args "category" "category: " ++
              plainPart args "sources" "sources: " ++ quotedPart args "query" "query: "
            some (titleFrom "Top headlines" parts ++
                  " (Found " ++ pyStr totalResults ++ " articles):\n\n" ++
                  format_articles_py articles 5, 1)
      | _ => none

/-- The `get-news-sources` branch of `handle_call_tool`. -/
def handleSources (apiKey : String) (args : JDict) (o : HttpOutcome) :
    Option (String × Nat) :=
  let params0 : JDict := []
  let params1 := match truthyArg args "category" with
    | some v => dictSet params0 "category" v
    | none => params0
  let params2 := match truthyArg args "language" with
    | some v => dictSet params1 "language" v
    | none => params1
  let params3 := match truthyArg args "country" with
    | some v => dictSet params2 "country" v
    | none => params2
  match (make_news_api_request apiKey "top-headlines/sources" (some params3) o).result with
  | .inr s => some ("Error: " ++ s, 1)
  | .inl data =>
    match data with
    | .jobj fs =>
      let sources := jGetD fs "sources" (.jarr [])
      if !pyTruthy sources then
        some ("No news sources found matching your criteria", 1)
      else
        match pyLen sources, countryPart args with
        | some n, some cp =>
          let parts := plainPart args "category" "category: " ++
            plainPart args "language" "language: " ++ cp
          some (titleFrom "Available news sources" parts ++
                " (Found " ++ toString n ++ " sources):\n\n" ++
                format_sources_py sources 5, 1)
        | _, _ => none
    | _ => none

/-- `handle_call_tool`: argument presence is checked first (`if not
arguments:` fires on a missing or empty mapping), then the named tool's
branch runs.  The second component counts mediator invocations. -/
def handleCallTool (apiKey : String) (name : String) (arguments : Option JDict)
    (o : HttpOutcome) : Option (String × Nat) :=
  match arguments with
  | none => some ("Missing arguments for the request", 0)
  | some args =>
    if args.isEmpty then some ("Missing arguments for the request", 0)
    else if name == "search-news" then handleSearch apiKey args o
    else if name == "get-top-headlines" then handleHeadlines apiKey args o
    else if name == "get-news-sources" then handleSources apiKey args o
    else some ("Unknown tool: " ++ name, 0)

/-! ### Association-list lemmas for the credential-injection claims -/

/-- Number of bindings of key `k` in a dict. -/
def countKey (d : JDict) (k : String) : Nat :=
  d.countP (fun p => p.1 == k)

theorem jGet_cons (p : String × JValue) (t : JDict) (k : String) :
    jGet (p :: t) k = if p.1 == k then some p.2 else jGet t k := by
  by_cases h : (p.1 == k) = true
  · simp [jGet, List.find?_cons_of_pos, h]
  · have h' : (p.1 == k) = false := by simpa using h
    simp [jGet, List.find?_cons_of_neg, h', h]

theorem hasKey_cons (p : String × JValue) (t : JDict) (k : String) :
    hasKey (p :: t) k = (p.1 == k || hasKey t k) := by
  simp [hasKey, List.any_cons]

theorem countKey_cons (p : String × JValue) (t : JDict) (k : String) :
    countKey (p :: t) k = countKey t k + (if p.1 == k then 1 else 0) := by
  simp [countKey, List.countP_cons]

theorem countKey_eq_zero_of_hasKey_false {d : JDict} {k : String}
    (h : hasKey d k = false) : countKey d k = 0 := by
  induction d with
  | nil => rfl
  | cons p t ih =>
    rw [hasKey_cons] at h
    rcases Bool.or_eq_false_iff.mp h with ⟨h1, h2⟩
    rw [countKey_cons, h1, ih h2]
    simp

theorem mapSet_id_of_hasKey_false (d : JDict) (k : String) (v : JValue)
    (h : hasKey d k = false) :
    d.map (fun p => if p.1 == k then (k, v) else p) = d := by
  induction d with
  | nil => rfl
  | cons p t ih =>
    rw [hasKey_cons] at h
    rcases Bool.or_eq_false_iff.mp h with ⟨h1, h2⟩
    simp only [List.map_cons, h1, ih h2, if_neg (by simp [h1] : ¬(p.1 == k) = true)]
    simp [h1]

theorem jGet_mapSet_self (d : JDict) (k : String) (v : JValue)
    (h : hasKey d k = true) :
    jGet (d.map (fun p => if p.1 == k then (k, v) else p)) k = some v := by
  induction d with
  | nil => simp [hasKey] at h
  | cons p t ih =>
    by_cases hp : (p.1 == k) = true
    · simp only [List.map_cons, if_pos hp, jGet_cons]
      simp
    · have hp' : (p.1 == k) = false := by simpa using hp
      have ht : hasKey t k = true := by
        rw [hasKey_cons, hp'] at h; simpa using h
      simp only [List.map_cons, if_neg (by simp [hp'] : ¬(p.1 == k) = true), jGet_cons, hp']
      simpa [hp'] using ih ht

theorem jGet_mapSet_ne (d : JDict) (k k' : String) (v : JValue)
    (hne : k' ≠ k) :
    jGet (d.map (fun p => if p.1 == k then (k, v) else p)) k' = jGet d k' := by
  have hkk : (k == k') = false := by
    simp only [beq_eq_false_iff_ne]; exact fun h => hne h.symm
  induction d with
  | nil => rfl
  | cons p t ih =>
    by_cases hp : (p.1 == k) = true
    · have hpk : p.1 = k := by simpa using hp
      have hpk' : (p.1 == k') = false := by rw [hpk]; exact hkk
      simp only [List.map_cons, if_pos hp, jGet_cons, hkk, hpk']
      simpa using ih
    · have hp' : (p.1 == k) = false := by simpa using hp
      simp only [List.map_cons, if_neg (by simp [hp'] : ¬(p.1 == k) = true), jGet_cons]
      rw [ih]

theorem jGet_append_self (d : JDict) (k : String) (v : JValue)
    (h : hasKey d k = false) :
    jGet (d ++ [(k, v)]) k = some v := by
  induction d with
  | nil => simp [jGet]
  | cons p t ih =>
    rw [hasKey_cons] at h
    rcases Bool.or_eq_false_iff.mp h with ⟨h1, h2⟩
    rw [List.cons_append, jGet_cons, h1, ih h2]
    simp

theorem jGet_append_ne (d : JDict) (k k' : String) (v : JValue)
    (hne : k' ≠ k) :
    jGet (d ++ [(k, v)]) k' = jGet d k' := by
  have hkk : (k == k') = false := by
    simp only [beq_eq_false_iff_ne]; exact fun h => hne h.symm
  induction d with
  | nil => simp [jGet, List.find?_cons_of_neg, hkk]
  | cons p t ih =>
    rw [List.cons_append, jGet_cons, jGet_cons, ih]

theorem countKey_mapSet (d : JDict) (k : String) (v : JValue)
    (hnd : (d.map Prod.fst).Nodup) (h : hasKey d k = true) :
    countKey (d.map (fun p => if p.1 == k then (k, v) else p)) k = 1 := by
  induction d with
  | nil => simp [hasKey] at h
  | cons p t ih =>
    rw [List.map_cons, List.nodup_cons] at hnd
    by_cases hp : (p.1 == k) = true
    · have hpk : p.1 = k := by simpa using hp
      have ht : hasKey t k = false := by
        cases hh : hasKey t k with
        | false => rfl
        | true =>
          exfalso
          apply hnd.1
          have : ∃ q ∈ t, (q.1 == k) = true := by
            simpa [hasKey, List.any_eq_true] using hh
          obtain ⟨q, hq, hqk⟩ := this
          have : q.1 = k := by simpa using hqk
          rw [hpk, ← this]
          exact List.mem_map.mpr ⟨q, hq, rfl⟩
      simp only [List.map_cons, if_pos hp, countKey_cons]
      rw [mapSet_id_of_hasKey_false t k v ht,
        countKey_eq_zero_of_hasKey_false ht]
      simp
    · have hp' : (p.1 == k) = false := by simpa using hp
      have ht : hasKey t k = true := by
        rw [hasKey_cons, hp'] at h; simpa using h
      simp only [List.map_cons, if_neg (by simp [hp'] : ¬(p.1 == k) = true),
        countKey_cons, hp', ih hnd.2 ht]
      simp [hp']

theorem countKey_append (d : JDict) (k : String) (v : JValue)
    (h : hasKey d k = false) :
    countKey (d ++ [(k, v)]) k = 1 := by
  have h0 := countKey_eq_zero_of_hasKey_false h
  unfold countKey at h0 ⊢
  rw [List.countP_append, h0]
  simp

theorem jGet_dictSet_self (d : JDict) (k : String) (v : JValue) :
    jGet (dictSet d k v) k = some v := by
  unfold dictSet
  cases h : hasKey d k with
  | true => simpa [h] using jGet_mapSet_self d k v h
  | false => simpa [h] using jGet_append_self d k v h

theorem jGet_dictSet_ne (d : JDict) (k k' : String) (v : JValue)
    (hne : k' ≠ k) : jGet (dictSet d k v) k' = jGet d k' := by
  unfold dictSet
  cases h : hasKey d k with
  | true => simpa [h] using jGet_mapSet_ne d k k' v hne
  | false => simpa [h] using jGet_append_ne d k k' v hne

theorem countKey_dictSet (d : JDict) (k : String) (v : JValue)
    (hnd : (d.map Prod.fst).Nodup) :
    countKey (dictSet d k v) k = 1 := by
  unfold dictSet
  cases h : hasKey d k with
  | true => simpa [h] using countKey_mapSet d k v hnd h
  | false => simpa [h] using countKey_append d k v h

/-! ### Claim theorems -/

/-- C1: for every endpoint parameterisation and every outcome of the
underlying HTTP call (timeout, connection failure, any HTTP status, an
unparseable body, or any other exception), `make_news_api_request` returns
exactly one of a success value (the parsed JSON object) or a failure value
(a descriptive error string), and never raises to its caller. -/
theorem mediator_returns_exactly_success_or_failure
    (apiKey endpoint : String) (params : Option JDict) (o : HttpOutcome) :
    ((∃ d, (make_news_api_request apiKey endpoint params o).result = Sum.inl d) ∨
     (∃ s, (make_news_api_request apiKey endpoint params o).result = Sum.inr s)) ∧
    ¬((∃ d, (make_news_api_request apiKey endpoint params o).result = Sum.inl d) ∧
      (∃ s, (make_news_api_request apiKey endpoint params o).result = Sum.inr s)) := by
  constructor
  · cases h : (make_news_api_request apiKey endpoint params o).result with
    | inl d => exact Or.inl ⟨d, rfl⟩
    | inr s => exact Or.inr ⟨s, rfl⟩
  · rintro ⟨⟨d, hd⟩, ⟨s, hs⟩⟩
    rw [hd] at hs
    exact Sum.noConfusion hs

/-- Witness for C1 at a concrete call: a timed-out request with no caller
parameters. -/
theorem mediator_returns_exactly_success_or_failure_witness :
    ((∃ d, (make_news_api_request "k" "everything" none .timeout).result = Sum.inl d) ∨
     (∃ s, (make_news_api_request "k" "everything" none .timeout).result = Sum.inr s)) ∧
    ¬((∃ d, (make_news_api_request "k" "everything" none .timeout).result = Sum.inl d) ∧
      (∃ s, (make_news_api_request "k" "everything" none .timeout).result = Sum.inr s)) :=
  mediator_returns_exactly_success_or_failure "k" "everything" none .timeout

/-- C2: the mediator classifies status codes before raising: a 429 response
yields the free-tier quota-limit failure string, a 401 yields the
credential-invalid wording, and a 400 yields a failure string containing
the literal upstream body. -/
theorem mediator_classifies_429_401_400
    (apiKey endpoint : String) (params : Option JDict) (body : String) (j : Option JValue) :
    ((make_news_api_request apiKey endpoint params (.response 429 body j)).result =
        Sum.inr "Rate limit exceeded. The News API has a limit of 100 requests per day for the free tier." ∧
      ∃ pre post,
        "Rate limit exceeded. The News API has a limit of 100 requests per day for the free tier." =
          pre ++ "100 requests per day for the free tier" ++ post) ∧
    ((make_news_api_request apiKey endpoint params (.response 401 body j)).result =
        Sum.inr "Unauthorized. API key invalid or expired." ∧
      ∃ pre post,
        "Unauthorized. API key invalid or expired." = pre ++ "API key invalid or expired" ++ post) ∧
    ((make_news_api_request apiKey endpoint params (.response 400 body j)).result =
        Sum.inr ("Bad request. Error details: " ++ body) ∧
      ∃ pre, "Bad request. Error details: " ++ body = pre ++ body) :=
  ⟨⟨rfl, "Rate limit exceeded. The News API has a limit of ", ".", by decide⟩,
   ⟨rfl, "Unauthorized. ", ".", by decide⟩,
   ⟨rfl, "Bad request. Error details: ", rfl⟩⟩

/-- C3: for a 2xx response whose JSON body carries the explicit error-status
marker, the mediator fails with a string containing the upstream error
message; for a 2xx response without the marker it succeeds with the parsed
body unchanged. -/
theorem mediator_2xx_error_marker
    (apiKey endpoint : String) (params : Option JDict) (st : Nat) (body : String)
    (fields : JDict) (h1 : 200 ≤ st) (h2 : st < 300) :
    (jGet fields "status" = some (.jstr "error") →
      (make_news_api_request apiKey endpoint params (.response st body (some (.jobj fields)))).result =
        Sum.inr ("News API error: " ++ pyStr (jGetD fields "message" (.jstr "Unknown error"))) ∧
      (∀ m, jGet fields "message" = some (.jstr m) →
        ∃ pre, (make_news_api_request apiKey endpoint params (.response st body (some (.jobj fields)))).result =
          Sum.inr (pre ++ m))) ∧
    (jGet fields "status" ≠ some (.jstr "error") →
      (make_news_api_request apiKey endpoint params (.response st body (some (.jobj fields)))).result =
        Sum.inl (.jobj fields)) := by
  have h429 : (st == 429) = false := by simp; omega
  have h401 : (st == 401) = false := by simp; omega
  have h400 : (st == 400) = false := by simp; omega
  have hok : ¬(st < 200 ∨ 300 ≤ st) := by omega
  constructor
  · intro hmark
    constructor
    · simp only [make_news_api_request, mediatorResult, tryBody, h429, h401, h400,
        if_neg hok, hmark]
      simp
    · intro m hm
      refine ⟨"News API error: ", ?_⟩
      simp only [make_news_api_request, mediatorResult, tryBody, h429, h401, h400,
        if_neg hok, hmark, jGetD, hm]
      simp [pyStr]
  · intro hne
    simp only [make_news_api_request, mediatorResult, tryBody, h429, h401, h400,
      if_neg hok]
    cases hst : jGet fields "status" with
    | none => simp
    | some v =>
      cases v with
      | jstr s =>
        have hs : (s == "error") = false := by
          simp only [beq_eq_false_iff_ne]
          intro hcontr
          exact hne (by rw [hst, hcontr])
        simp [hs]
      | jnull => simp
      | jbool b => simp
      | jnum n => simp
      | jarr xs => simp
      | jobj d => simp

/-- Witness for C3 at a concrete 2xx response carrying the error marker and
at one without it. -/
theorem mediator_2xx_error_marker_witness :
    (200 ≤ 200 ∧ 200 < 300) ∧
    ((jGet [("status", JValue.jstr "error"), ("message", JValue.jstr "boom")] "status" =
        some (.jstr "error") →
      (make_news_api_request "k" "everything" none
          (.response 200 "" (some (.jobj [("status", JValue.jstr "error"), ("message", JValue.jstr "boom")])))).result =
        Sum.inr ("News API error: " ++
          pyStr (jGetD [("status", JValue.jstr "error"), ("message", JValue.jstr "boom")] "message" (.jstr "Unknown error"))) ∧
      (∀ m, jGet [("status", JValue.jstr "error"), ("message", JValue.jstr "boom")] "message" =
          some (.jstr m) →
        ∃ pre, (make_news_api_request "k" "everything" none
            (.response 200 "" (some (.jobj [("status", JValue.jstr "error"), ("message", JValue.jstr "boom")])))).result =
          Sum.inr (pre ++ m))) ∧
    (jGet [("status", JValue.jstr "error"), ("message", JValue.jstr "boom")] "status" ≠
        some (.jstr "error") →
      (make_news_api_request "k" "everything" none
          (.response 200 "" (some (.jobj [("status", JValue.jstr "error"), ("message", JValue.jstr "boom")])))).result =
        Sum.inl (.jobj [("status", JValue.jstr "error"), ("message", JValue.jstr "boom")]))) :=
  ⟨⟨by omega, by omega⟩,
   mediator_2xx_error_marker "k" "everything" none 200 ""
     [("status", JValue.jstr "error"), ("message", JValue.jstr "boom")] (by omega) (by omega)⟩

/-- C8: the query mapping sent upstream always binds `apiKey` to the
configured key, exactly once -- also when the caller's mapping already
contains an `apiKey` entry (the assignment overwrites it). -/
theorem mediator_injects_api_key_exactly_once
    (apiKey endpoint : String) (params : Option JDict) (o : HttpOutcome)
    (hnd : ((params.getD []).map Prod.fst).Nodup) :
    jGet (make_news_api_request apiKey endpoint params o).sentParams "apiKey" =
      some (.jstr apiKey) ∧
    countKey (make_news_api_request apiKey endpoint params o).sentParams "apiKey" = 1 := by
  constructor
  · exact jGet_dictSet_self _ _ _
  · exact countKey_dictSet _ _ _ hnd

/-- Witness for C8 at a call whose mapping already binds `apiKey`. -/
theorem mediator_injects_api_key_exactly_once_witness :
    (((some [("apiKey", JValue.jstr "old"), ("q", JValue.jstr "x")] : Option JDict).getD
        []).map Prod.fst).Nodup ∧
    (jGet (make_news_api_request "k" "everything"
        (some [("apiKey", JValue.jstr "old"), ("q", JValue.jstr "x")]) .timeout).sentParams
        "apiKey" = some (.jstr "k") ∧
     countKey (make_news_api_request "k" "everything"
        (some [("apiKey", JValue.jstr "old"), ("q", JValue.jstr "x")]) .timeout).sentParams
        "apiKey" = 1) :=
  ⟨by decide,
   mediator_injects_api_key_exactly_once "k" "everything"
     (some [("apiKey", JValue.jstr "old"), ("q", JValue.jstr "x")]) .timeout (by decide)⟩

/-- C9 counterexample: `make_news_api_request` mutates the caller-supplied
mapping.  Called with an empty dict, the caller's dict afterwards contains
the injected `apiKey` binding, so it is not left unchanged. -/
theorem mediator_mutates_caller_params :
    (make_news_api_request "k" "everything" (some []) .timeout).callerParams =
      some [("apiKey", JValue.jstr "k")] ∧
    (make_news_api_request "k" "everything" (some []) .timeout).callerParams ≠
      some ([] : JDict) := by
  constructor
  · rfl
  · intro h
    simp [make_news_api_request, dictSet, hasKey] at h

/-- C9 amended: the only mutation of the caller-supplied mapping is the
binding of the credential key `apiKey` to the configured API key; every
other key's binding is unchanged after the call. -/
theorem mediator_mutation_limited_to_api_key
    (apiKey endpoint : String) (params : JDict) (o : HttpOutcome) :
    ∃ d, (make_news_api_request apiKey endpoint (some params) o).callerParams = some d ∧
      jGet d "apiKey" = some (.jstr apiKey) ∧
      ∀ k, k ≠ "apiKey" → jGet d k = jGet params k := by
  refine ⟨dictSet params "apiKey" (.jstr apiKey), rfl, jGet_dictSet_self _ _ _, ?_⟩
  intro k hk
  exact jGet_dictSet_ne _ _ _ _ hk

/-- Witness for the amended C9 at a concrete mapping and key. -/
theorem mediator_mutation_limited_to_api_key_witness :
    ∃ d, (make_news_api_request "k" "everything" (some [("q", JValue.jstr "x")]) .timeout).callerParams =
        some d ∧
      jGet d "apiKey" = some (.jstr "k") ∧
      jGet d "q" = jGet [("q", JValue.jstr "x")] "q" := by
  obtain ⟨d, h1, h2, h3⟩ :=
    mediator_mutation_limited_to_api_key "k" "everything" [("q", JValue.jstr "x")] .timeout
  exact ⟨d, h1, h2, h3 "q" (by decide)⟩

/-! ### Formatter claims: absent-field defaults, list limits, timestamps -/

/-- An article record over the claim's field inventory: each field either
absent or present with a string value; a present `source` is an object with
the given `name`. -/
def mkArticle (t src a p d u : Option String) : JValue :=
  .jobj ((match t with | some s => [("title", JValue.jstr s)] | none => []) ++
         (match src with
          | some n => [("source", JValue.jobj [("name", JValue.jstr n)])]
          | none => []) ++
         (match a with | some s => [("author", JValue.jstr s)] | none => []) ++
         (match p with | some s => [("publishedAt", JValue.jstr s)] | none => []) ++
         (match d with | some s => [("description", JValue.jstr s)] | none => []) ++
         (match u with | some s => [("url", JValue.jstr s)] | none => []))

/-- A source record over the claim's field inventory. -/
def mkSource (n i de c l co ur : Option String) : JValue :=
  .jobj ((match n with | some s => [("name", JValue.jstr s)] | none => []) ++
         (match i with | some s => [("id", JValue.jstr s)] | none => []) ++
         (match de with | some s => [("description", JValue.jstr s)] | none => []) ++
         (match c with | some s => [("category", JValue.jstr s)] | none => []) ++
         (match l with | some s => [("language", JValue.jstr s)] | none => []) ++
         (match co with | some s => [("country", JValue.jstr s)] | none => []) ++
         (match ur with | some s => [("url", JValue.jstr s)] | none => []))

/-- The present value, or the `"N/A"` placeholder when absent. -/
def orNA : Option String → String
  | some s => s
  | none => "N/A"

/-- C4 counterexample: an article with an absent published timestamp does
not render the field as `"N/A"` -- the renderer substitutes
`"Unknown date"` there instead, so not every absent field becomes `"N/A"`. -/
theorem absent_published_renders_unknown_date :
    format_article (.jobj []) =
      "Title: N/A\nSource: N/A\nAuthor: N/A\nPublished: Unknown date\nDescription: N/A\nURL: N/A\n---\n" ∧
    format_article (.jobj []) ≠
      "Title: N/A\nSource: N/A\nAuthor: N/A\nPublished: N/A\nDescription: N/A\nURL: N/A\n---\n" :=
  ⟨rfl, by decide⟩

/-- C4 amended: for every presence pattern, each absent field renders as the
literal `"N/A"` placeholder, except the article's published timestamp,
whose absence renders as `"Unknown date"`. -/
theorem absent_fields_render_na :
    (∀ t src a d u : Option String,
      format_article (mkArticle t src a none d u) =
        "Title: " ++ orNA t ++ "\n" ++ "Source: " ++ orNA src ++ "\n" ++
        "Author: " ++ orNA a ++ "\n" ++ "Published: " ++ "Unknown date" ++ "\n" ++
        "Description: " ++ orNA d ++ "\n" ++ "URL: " ++ orNA u ++ "\n" ++ "---\n") ∧
    (∀ n i de c l co ur : Option String,
      format_source (mkSource n i de c l co ur) =
        "Name: " ++ orNA n ++ "\n" ++ "ID: " ++ orNA i ++ "\n" ++
        "Description: " ++ orNA de ++ "\n" ++ "Category: " ++ orNA c ++ "\n" ++
        "Language: " ++ orNA l ++ "\n" ++ "Country: " ++ orNA co ++ "\n" ++
        "URL: " ++ orNA ur ++ "\n" ++ "---\n") := by
  constructor
  · intro t src a d u
    cases t <;> cases src <;> cases a <;> cases d <;> cases u <;> rfl
  · intro n i de c l co ur
    cases n <;> cases i <;> cases de <;> cases c <;> cases l <;> cases co <;> cases ur <;> rfl

theorem articleBlocks_length (articles : List JValue) (limit : Nat) :
    (articleBlocks articles limit).length = min limit articles.length := by
  simp [articleBlocks]

theorem sourceBlocks_length (sources : List JValue) (limit : Nat) :
    (sourceBlocks sources limit).length = min limit sources.length := by
  simp [sourceBlocks]

theorem articleBlocks_get (articles : List JValue) (limit i : Nat)
    (h : i < (articleBlocks articles limit).length) :
    ∃ rest, (articleBlocks articles limit).get ⟨i, h⟩ =
      "Article " ++ toString (i + 1) ++ ":\n" ++ rest := by
  simp [articleBlocks]

theorem sourceBlocks_get (sources : List JValue) (limit i : Nat)
    (h : i < (sourceBlocks sources limit).length) :
    ∃ rest, (sourceBlocks sources limit).get ⟨i, h⟩ =
      "Source " ++ toString (i + 1) ++ ":\n" ++ rest := by
  simp [sourceBlocks]

theorem format_articles_with_more (articles : List JValue) (limit : Nat)
    (hne : articles ≠ []) (hlt : limit < articles.length) :
    format_articles articles limit =
      String.intercalate "\n" (articleBlocks articles limit ++
        ["\n... and " ++ toString (articles.length - limit) ++ " more articles"]) := by
  rw [format_articles, if_neg (by simpa using hne)]
  rw [moreLine, if_pos hlt, String.append_assoc]
  rfl

theorem format_articles_no_more (articles : List JValue) (limit : Nat)
    (hne : articles ≠ []) (hle : articles.length ≤ limit) :
    format_articles articles limit =
      String.intercalate "\n" (articleBlocks articles limit) := by
  rw [format_articles, if_neg (by simpa using hne)]
  rw [moreLine, if_neg (by omega)]
  simp

theorem format_sources_with_more (sources : List JValue) (limit : Nat)
    (hne : sources ≠ []) (hlt : limit < sources.length) :
    format_sources sources limit =
      String.intercalate "\n" (sourceBlocks sources limit ++
        ["\n... and " ++ toString (sources.length - limit) ++ " more sources"]) := by
  rw [format_sources, if_neg (by simpa using hne)]
  rw [moreLine, if_pos hlt, String.append_assoc]
  rfl

theorem format_sources_no_more (sources : List JValue) (limit : Nat)
    (hne : sources ≠ []) (hle : sources.length ≤ limit) :
    format_sources sources limit =
      String.intercalate "\n" (sourceBlocks sources limit) := by
  rw [format_sources, if_neg (by simpa using hne)]
  rw [moreLine, if_neg (by omega)]
  simp

/-- C5: the list renderers return the fixed sentinel on an empty list;
otherwise they render exactly the first `min limit length` items, each
prefixed with a 1-based ordinal label, joined with newlines, and append the
omitted-count summary line exactly when the list is longer than the limit. -/
theorem list_renderer_limit_and_summary
    (articles sources : List JValue) (limit : Nat) :
    (articles = [] → format_articles articles limit = "No articles found.") ∧
    (sources = [] → format_sources sources limit = "No sources found.") ∧
    (articleBlocks articles limit).length = min limit articles.length ∧
    (sourceBlocks sources limit).length = min limit sources.length ∧
    (∀ i (h : i < (articleBlocks articles limit).length),
      ∃ rest, (articleBlocks articles limit).get ⟨i, h⟩ =
        "Article " ++ toString (i + 1) ++ ":\n" ++ rest) ∧
    (∀ i (h : i < (sourceBlocks sources limit).length),
      ∃ rest, (sourceBlocks sources limit).get ⟨i, h⟩ =
        "Source " ++ toString (i + 1) ++ ":\n" ++ rest) ∧
    (articles ≠ [] → limit < articles.length →
      format_articles articles limit =
        String.intercalate "\n" (articleBlocks articles limit ++
          ["\n... and " ++ toString (articles.length - limit) ++ " more articles"])) ∧
    (articles ≠ [] → articles.length ≤ limit →
      format_articles articles limit =
        String.intercalate "\n" (articleBlocks articles limit)) ∧
    (sources ≠ [] → limit < sources.length →
      format_sources sources limit =
        String.intercalate "\n" (sourceBlocks sources limit ++
          ["\n... and " ++ toString (sources.length - limit) ++ " more sources"])) ∧
    (sources ≠ [] → sources.length ≤ limit →
      format_sources sources limit =
        String.intercalate "\n" (sourceBlocks sources limit)) := by
  refine ⟨?_, ?_, articleBlocks_length _ _, sourceBlocks_length _ _,
    articleBlocks_get _ _, sourceBlocks_get _ _,
    format_articles_with_more _ _, format_articles_no_more _ _,
    format_sources_with_more _ _, format_sources_no_more _ _⟩
  · intro h; rw [format_articles, if_pos (by simp [h])]
  · intro h; rw [format_sources, if_pos (by simp [h])]

/-- Witness for C5: 7 articles with limit 5 render 5 ordinal-labelled
blocks plus the omitted-count line, which reads "... and 2 more
articles". -/
theorem list_renderer_limit_and_summary_witness :
    (List.replicate 7 (JValue.jobj []) ≠ ([] : List JValue)) ∧
    (5 : Nat) < (List.replicate 7 (JValue.jobj [])).length ∧
    format_articles (List.replicate 7 (JValue.jobj [])) 5 =
      String.intercalate "\n" (articleBlocks (List.replicate 7 (JValue.jobj [])) 5 ++
        ["\n... and " ++ toString ((List.replicate 7 (JValue.jobj [])).length - 5) ++
          " more articles"]) ∧
    (articleBlocks (List.replicate 7 (JValue.jobj [])) 5).length = 5 ∧
    toString ((List.replicate 7 (JValue.jobj [])).length - 5) = "2" := by
  refine ⟨by simp, by simp, ?_, ?_, by decide⟩
  · exact (list_renderer_limit_and_summary (List.replicate 7 (JValue.jobj [])) [] 5).2.2.2.2.2.2.1
      (by simp) (by simp)
  · have h := (list_renderer_limit_and_summary (List.replicate 7 (JValue.jobj [])) [] 5).2.2.1
    simpa using h

/-- C6 counterexample: the empty `publishedAt` string is unparseable, yet
it is not rendered verbatim -- the truthiness check routes it to
`"Unknown date"` instead of the raw (empty) string. -/
theorem empty_published_not_verbatim :
    pyFromIso (replaceZ "") = none ∧
    format_article (.jobj [("publishedAt", JValue.jstr "")]) =
      "Title: N/A\nSource: N/A\nAuthor: N/A\nPublished: Unknown date\nDescription: N/A\nURL: N/A\n---\n" ∧
    format_article (.jobj [("publishedAt", JValue.jstr "")]) ≠
      "Title: N/A\nSource: N/A\nAuthor: N/A\nPublished: \nDescription: N/A\nURL: N/A\n---\n" :=
  ⟨by decide, rfl, by decide⟩

/-- C6 amended: for every nonempty `publishedAt` string, the rendered
Published field is the fixed `"YYYY-MM-DD HH:MM UTC"` display form of the
parsed timestamp when the Z-normalised string parses as ISO-8601, and the
raw string verbatim when it does not; the renderer never raises.  (The
empty string instead renders as `"Unknown date"`.) -/
theorem published_field_rendering (s : String) (hs : s ≠ "") :
    format_article (.jobj [("publishedAt", JValue.jstr s)]) =
      "Title: " ++ "N/A" ++ "\n" ++ "Source: " ++ "N/A" ++ "\n" ++
      "Author: " ++ "N/A" ++ "\n" ++ "Published: " ++ formatPublished s ++ "\n" ++
      "Description: " ++ "N/A" ++ "\n" ++ "URL: " ++ "N/A" ++ "\n" ++ "---\n" ∧
    (∀ t, pyFromIso (replaceZ s) = some t →
      formatPublished s = strftimeDisplay t) ∧
    (pyFromIso (replaceZ s) = none → formatPublished s = s) := by
  have htr : pyTruthy (JValue.jstr s) = true := by
    simp [pyTruthy, bne_iff_ne, hs]
  refine ⟨?_, ?_, ?_⟩
  · simp [format_article, formatArticleCore, jGetD, jGet, htr, pyStr]
  · intro t ht
    rw [formatPublished, ht]
  · intro ht
    rw [formatPublished, ht]

/-- Witness for the amended C6 at the claim's two examples: a valid
ISO-8601 timestamp and the unparsable string `"not-a-date"`. -/
theorem published_field_rendering_witness :
    ("2024-03-01T12:30:00Z" ≠ "" ∧
      formatPublished "2024-03-01T12:30:00Z" = "2024-03-01 12:30 UTC") ∧
    ("not-a-date" ≠ "" ∧ formatPublished "not-a-date" = "not-a-date") ∧
    format_article (.jobj [("publishedAt", JValue.jstr "2024-03-01T12:30:00Z")]) =
      "Title: N/A\nSource: N/A\nAuthor: N/A\nPublished: 2024-03-01 12:30 UTC\nDescription: N/A\nURL: N/A\n---\n" := by
  refine ⟨⟨by decide, ?_⟩, ⟨by decide, ?_⟩, ?_⟩
  · exact ((published_field_rendering "2024-03-01T12:30:00Z" (by decide)).2.1
      ⟨2024, 3, 1, 12, 30, 0⟩ (by decide)).trans (by decide)
  · exact (published_field_rendering "not-a-date" (by decide)).2.2 (by decide)
  · exact ((published_field_rendering "2024-03-01T12:30:00Z" (by decide)).1).trans (by decide)

/-! ### Dispatch claims -/

theorem jGet_none_of_hasKey_false {d : JDict} {k : String}
    (h : hasKey d k = false) : jGet d k = none := by
  induction d with
  | nil => rfl
  | cons p t ih =>
    rw [hasKey_cons] at h
    rcases Bool.or_eq_false_iff.mp h with ⟨h1, h2⟩
    rw [jGet_cons, h1, ih h2]
    simp

theorem isEmpty_false_of_jGet_some {d : JDict} {k : String} {v : JValue}
    (h : jGet d k = some v) : d.isEmpty = false := by
  cases d with
  | nil => simp [jGet] at h
  | cons p t => rfl

theorem isEmpty_false_of_hasKey {d : JDict} {k : String}
    (h : hasKey d k = true) : d.isEmpty = false := by
  cases d with
  | nil => simp [hasKey] at h
  | cons p t => rfl

theorem format_articles_py_arr (xs : List JValue) (limit : Nat)
    (h : xs ≠ []) : format_articles_py (.jarr xs) limit = format_articles xs limit := by
  rw [format_articles_py]
  simp [pyTruthy, h]

theorem format_sources_py_arr (xs : List JValue) (limit : Nat)
    (h : xs ≠ []) : format_sources_py (.jarr xs) limit = format_sources xs limit := by
  rw [format_sources_py]
  simp [pyTruthy, h]

/-- C7: a `get-top-headlines` call whose argument mapping contains none of
the keys `country`, `category`, `sources` or `query` returns a
validation-error message, and the mediator is never invoked (the call count
is 0). -/
theorem headlines_without_filter_rejected
    (apiKey : String) (args : JDict) (o : HttpOutcome)
    (hc : hasKey args "country" = false) (hcat : hasKey args "category" = false)
    (hs : hasKey args "sources" = false) (hq : hasKey args "query" = false) :
    ∃ msg, handleCallTool apiKey "get-top-headlines" (some args) o = some (msg, 0) ∧
      (msg = "Missing arguments for the request" ∨
       msg = "You must specify at least one of: country, category, sources, or query") := by
  cases he : args.isEmpty with
  | true =>
    have h0 : args = [] := by simpa [List.isEmpty_iff] using he
    subst h0
    exact ⟨"Missing arguments for the request", rfl, Or.inl rfl⟩
  | false =>
    refine ⟨"You must specify at least one of: country, category, sources, or query",
      ?_, Or.inr rfl⟩
    simp only [handleCallTool]
    rw [if_neg (by simp [he]), if_neg (by decide), if_pos (by decide)]
    unfold handleHeadlines
    rw [hc, hcat, hs, hq]
    rfl

/-- Witness for C7: a mapping carrying only `page_size` is rejected with
the validation message and zero mediator calls. -/
theorem headlines_without_filter_rejected_witness :
    (hasKey [("page_size", JValue.jnum 10)] "country" = false ∧
     hasKey [("page_size", JValue.jnum 10)] "category" = false ∧
     hasKey [("page_size", JValue.jnum 10)] "sources" = false ∧
     hasKey [("page_size", JValue.jnum 10)] "query" = false) ∧
    ∃ msg, handleCallTool "k" "get-top-headlines"
        (some [("page_size", JValue.jnum 10)]) .timeout = some (msg, 0) ∧
      (msg = "Missing arguments for the request" ∨
       msg = "You must specify at least one of: country, category, sources, or query") :=
  ⟨⟨by decide, by decide, by decide, by decide⟩,
   headlines_without_filter_rejected "k" [("page_size", JValue.jnum 10)] .timeout
     (by decide) (by decide) (by decide) (by decide)⟩

theorem dispatch_search_body (apiKey : String) (args : JDict) (o : HttpOutcome)
    (fs : JDict) (xs : List JValue) (q : String)
    (hres : mediatorResult o = Sum.inl (.jobj fs))
    (hart : jGet fs "articles" = some (.jarr xs)) (hxs : xs ≠ [])
    (hq : jGet args "query" = some (.jstr q)) (hqne : q ≠ "") :
    ∃ pre, handleCallTool apiKey "search-news" (some args) o =
      some (pre ++ format_articles_py (.jarr xs) 5, 1) := by
  have hne : args.isEmpty = false := isEmpty_false_of_jGet_some hq
  have hq' : jGetD args "query" JValue.jnull = JValue.jstr q := by rw [jGetD, hq]; rfl
  have hart' : jGetD fs "articles" (JValue.jarr []) = JValue.jarr xs := by
    rw [jGetD, hart]; rfl
  have key : handleCallTool apiKey "search-news" (some args) o =
      some (("Search results for " ++ pyQuote ++ pyStr (JValue.jstr q) ++ pyQuote ++
        " (Found " ++ pyStr (jGetD fs "totalResults" (JValue.jnum 0)) ++
        " articles):\n\n") ++ format_articles_py (JValue.jarr xs) 5, 1) := by
    simp only [handleCallTool]
    rw [if_neg (by simp [hne]), if_pos (by decide)]
    simp [handleSearch, hq', hres, hart', make_news_api_request, pyTruthy,
      bne_iff_ne, hqne, hxs]
  exact ⟨_, key⟩

theorem dispatch_headlines_body (apiKey : String) (args : JDict) (o : HttpOutcome)
    (fs : JDict) (xs : List JValue)
    (hres : mediatorResult o = Sum.inl (.jobj fs))
    (hart : jGet fs "articles" = some (.jarr xs)) (hxs : xs ≠ [])
    (hqk : hasKey args "query" = true) (hc : hasKey args "country" = false) :
    ∃ pre, handleCallTool apiKey "get-top-headlines" (some args) o =
      some (pre ++ format_articles_py (.jarr xs) 5, 1) := by
  have hne : args.isEmpty = false := isEmpty_false_of_hasKey hqk
  have hart' : jGetD fs "articles" (JValue.jarr []) = JValue.jarr xs := by
    rw [jGetD, hart]; rfl
  have hcn : jGet args "country" = none := jGet_none_of_hasKey_false hc
  have hcp : countryPart args = some [] := by
    simp [countryPart, truthyArg, jGetD, hcn, pyTruthy]
  have hfilter : (hasKey args "country" || hasKey args "category" ||
      hasKey args "sources" || hasKey args "query") = true := by
    rw [hqk]; simp
  have key : handleCallTool apiKey "get-top-headlines" (some args) o =
      some ((titleFrom "Top headlines"
          (([] : List String) ++ plainPart args "category" "category: " ++
            plainPart args "sources" "sources: " ++ quotedPart args "query" "query: ") ++
        " (Found " ++ pyStr (jGetD fs "totalResults" (JValue.jnum 0)) ++
        " articles):\n\n") ++ format_articles_py (JValue.jarr xs) 5, 1) := by
    simp only [handleCallTool]
    rw [if_neg (by simp [hne]), if_neg (by decide), if_pos (by decide)]
    simp [handleHeadlines, hfilter, hres, hart', make_news_api_request, pyTruthy,
      hxs, hcp]
  exact ⟨_, key⟩

theorem dispatch_sources_body (apiKey : String) (args : JDict) (o : HttpOutcome)
    (fs : JDict) (xs : List JValue)
    (hres : mediatorResult o = Sum.inl (.jobj fs))
    (hsrcs : jGet fs "sources" = some (.jarr xs)) (hxs : xs ≠ [])
    (hargs : args ≠ []) (hc : hasKey args "country" = false) :
    ∃ pre, handleCallTool apiKey "get-news-sources" (some args) o =
      some (pre ++ format_sources_py (.jarr xs) 5, 1) := by
  have hne : args.isEmpty = false := by
    cases args with
    | nil => exact absurd rfl hargs
    | cons p t => rfl
  have hsrcs' : jGetD fs "sources" (JValue.jarr []) = JValue.jarr xs := by
    rw [jGetD, hsrcs]; rfl
  have hcn : jGet args "country" = none := jGet_none_of_hasKey_false hc
  have hcp : countryPart args = some [] := by
    simp [countryPart, truthyArg, jGetD, hcn, pyTruthy]
  have key : handleCallTool apiKey "get-news-sources" (some args) o =
      some ((titleFrom "Available news sources"
          (plainPart args "category" "category: " ++
            plainPart args "language" "language: " ++ ([] : List String)) ++
        " (Found " ++ toString xs.length ++
        " sources):\n\n") ++ format_sources_py (JValue.jarr xs) 5, 1) := by
    simp only [handleCallTool]
    rw [if_neg (by simp [hne]), if_neg (by decide), if_neg (by decide), if_pos (by decide)]
    simp [handleSources, hres, hsrcs', make_news_api_request, pyTruthy, hxs, hcp, pyLen]
  exact ⟨_, key⟩

/-- C10: whenever a tool call succeeds, the dispatch layer hands the item
list to the list renderer with the Python default display limit of 5 --
independently of any `page_size` argument in the tool-call mapping (the
argument mapping `args` is arbitrary here apart from the named filter
hypotheses, so it may bind `page_size` to anything up to 100): the response
text embeds the limit-5 rendering, which for more than 5 items consists of
exactly 5 ordinal-labelled blocks plus the omitted-count summary line. -/
theorem dispatch_renders_with_default_limit_five
    (apiKey : String) (args : JDict) (o : HttpOutcome) (fs : JDict)
    (xs : List JValue) (hlen : 5 < xs.length)
    (hres : mediatorResult o = Sum.inl (.jobj fs)) :
    (format_articles_py (.jarr xs) 5 =
        String.intercalate "\n" (articleBlocks xs 5 ++
          ["\n... and " ++ toString (xs.length - 5) ++ " more articles"]) ∧
      (articleBlocks xs 5).length = 5) ∧
    (format_sources_py (.jarr xs) 5 =
        String.intercalate "\n" (sourceBlocks xs 5 ++
          ["\n... and " ++ toString (xs.length - 5) ++ " more sources"]) ∧
      (sourceBlocks xs 5).length = 5) ∧
    (jGet fs "articles" = some (.jarr xs) →
      (∀ q, jGet args "query" = some (.jstr q) → q ≠ "" →
        ∃ pre, handleCallTool apiKey "search-news" (some args) o =
          some (pre ++ format_articles_py (.jarr xs) 5, 1)) ∧
      (hasKey args "query" = true → hasKey args "country" = false →
        ∃ pre, handleCallTool apiKey "get-top-headlines" (some args) o =
          some (pre ++ format_articles_py (.jarr xs) 5, 1))) ∧
    (jGet fs "sources" = some (.jarr xs) → args ≠ [] →
      hasKey args "country" = false →
      ∃ pre, handleCallTool apiKey "get-news-sources" (some args) o =
        some (pre ++ format_sources_py (.jarr xs) 5, 1)) := by
  have hxs : xs ≠ [] := by
    intro h; rw [h] at hlen; simp at hlen
  refine ⟨⟨?_, ?_⟩, ⟨?_, ?_⟩, ?_, ?_⟩
  · rw [format_articles_py_arr xs 5 hxs, format_articles_with_more xs 5 hxs hlen]
  · rw [articleBlocks_length]; omega
  · rw [format_sources_py_arr xs 5 hxs, format_sources_with_more xs 5 hxs hlen]
  · rw [sourceBlocks_length]; omega
  · intro hart
    exact ⟨fun q hq hqne =>
        dispatch_search_body apiKey args o fs xs q hres hart hxs hq hqne,
      fun hqk hc =>
        dispatch_headlines_body apiKey args o fs xs hres hart hxs hqk hc⟩
  · intro hsrcs hargs hc
    exact dispatch_sources_body apiKey args o fs xs hres hsrcs hxs hargs hc

/-- Witness for C10: a successful search over a 7-article payload renders
through the limit-5 formatter (5 blocks plus the summary line). -/
theorem dispatch_renders_with_default_limit_five_witness :
    (5 : Nat) < (List.replicate 7 (JValue.jobj [])).length ∧
    (∃ pre, handleCallTool "k" "search-news" (some [("query", JValue.jstr "tesla")])
        (.response 200 "" (some (.jobj
          [("articles", JValue.jarr (List.replicate 7 (JValue.jobj []))),
           ("totalResults", JValue.jnum 7)]))) =
      some (pre ++ format_articles_py (.jarr (List.replicate 7 (JValue.jobj []))) 5, 1)) ∧
    (articleBlocks (List.replicate 7 (JValue.jobj [])) 5).length = 5 := by
  have h := dispatch_renders_with_default_limit_five "k" [("query", JValue.jstr "tesla")]
    (.response 200 "" (some (.jobj
      [("articles", JValue.jarr (List.replicate 7 (JValue.jobj []))),
       ("totalResults", JValue.jnum 7)])))
    [("articles", JValue.jarr (List.replicate 7 (JValue.jobj []))),
     ("totalResults", JValue.jnum 7)]
    (List.replicate 7 (JValue.jobj [])) (by simp) rfl
  exact ⟨by simp, (h.2.2.1 rfl).1 "tesla" rfl (by decide), h.1.2⟩

/-- C3 counterexample: a 2xx response whose JSON body is not an object
(here the array `[0]`) contains no error-status marker, yet the mediator
does not return success -- `data.get` raises `AttributeError`, which the
catch-all converts into an unexpected-error failure string. -/
theorem non_object_2xx_body_not_success :
    (make_news_api_request "k" "everything" none
        (.response 200 "[0]" (some (.jarr [JValue.jnum 0])))).result =
      Sum.inr ("Unexpected error occurred: " ++
        pyExcStr (.attrExc "list" "get")) ∧
    ¬ ∃ d, (make_news_api_request "k" "everything" none
        (.response 200 "[0]" (some (.jarr [JValue.jnum 0])))).result = Sum.inl d := by
  have h1 : (make_news_api_request "k" "everything" none
      (.response 200 "[0]" (some (.jarr [JValue.jnum 0])))).result =
      Sum.inr ("Unexpected error occurred: " ++
        pyExcStr (.attrExc "list" "get")) := rfl
  refine ⟨h1, ?_⟩
  rintro ⟨d, h⟩
  rw [h1] at h
  exact Sum.noConfusion h
